import Mathlib

/-!
Shallow embedding of `minimal-rubbish-classifier.js` (Joycee-index/Rubbish-classifier).

The repository source contains two near-duplicate variants of the
`MinimalRubbishClassifier` class in one file:

* variant A — the category-only classifier (fixed `'plastic'` fallback, enlarged
  keyword table);
* variant B — the points-scoring classifier (random fallback among five
  categories, smaller keyword table, `getPoints` / `estimateWeight` /
  `calculatePoints`).

Definitions suffixed `A` / `B` embed the corresponding variant; unsuffixed
definitions are shared verbatim between the two variants.  JavaScript numbers
are modelled as exact rationals (`ℚ`), `Math.round` as `⌊x + 1/2⌋`, JavaScript
strings as Lean `String`, and the absent/`undefined` value as `Option`.  The
external vision call (`fetch` to the OpenAI endpoint) is modelled by an
`ExtOutcome` parameter describing the outcome of that call, and the random draw
`Math.floor(Math.random() * 5)` by a `Fin 5` parameter.
-/

namespace Rubbish

/-- The seven waste categories the classifier can return
(`plastic, paper, glass, metal, organic, hazardous, unknown`). -/
inductive Category
  | plastic
  | paper
  | glass
  | metal
  | organic
  | hazardous
  | unknown
deriving DecidableEq, Fintype, Repr

/-- The canonical lowercase name of each category, as the JS code spells it. -/
def Category.name : Category → String
  | .plastic => "plastic"
  | .paper => "paper"
  | .glass => "glass"
  | .metal => "metal"
  | .organic => "organic"
  | .hazardous => "hazardous"
  | .unknown => "unknown"

/-- Does the first character list lead (begin) the second?  Used to model
JavaScript `String.prototype.startsWith` / the step case of `includes`. -/
def strLeads : List Char → List Char → Bool
  | [], _ => true
  | _ :: _, [] => false
  | a :: as, b :: bs => a == b && strLeads as bs

/-- Does `sub` occur contiguously inside the second list? -/
def occursIn (sub : List Char) : List Char → Bool
  | [] => strLeads sub []
  | c :: rest => strLeads sub (c :: rest) || occursIn sub rest

/-- JavaScript `s.includes(sub)`: `sub` occurs as a substring of `s`. -/
def jsIncludes (s sub : String) : Bool := occursIn sub.toList s.toList

/-- ASCII whitespace recognised by the JS `trim` model. -/
def isWhitespace (c : Char) : Bool := c == ' ' || c == '\t' || c == '\n' || c == '\r'

/-- Model of `s.toLowerCase().trim()` applied to the AI response in
`classifyImage` before it is handed to `mapToCategory`. -/
def normalizeLabel (s : String) : String :=
  String.mk ((((s.toList.map Char.toLower).dropWhile isWhitespace).reverse.dropWhile
    isWhitespace).reverse)

/-- Exact match of a string against the seven canonical category names.
Variant A guards the direct-match path with the array
`['plastic', 'paper', 'glass', 'metal', 'organic', 'hazardous', 'unknown']`,
variant B with `this.pointsMultipliers.hasOwnProperty(aiResponse)`; both guard
sets are exactly the seven canonical names, so both direct-match paths are this
function. -/
def parseCategory (s : String) : Option Category :=
  if s = "plastic" then some .plastic
  else if s = "paper" then some .paper
  else if s = "glass" then some .glass
  else if s = "metal" then some .metal
  else if s = "organic" then some .organic
  else if s = "hazardous" then some .hazardous
  else if s = "unknown" then some .unknown
  else none

/-- Variant A keyword table (`categoryKeywords` object, first class). -/
def keywordsA : Category → List String
  | .paper => ["paper", "cardboard", "newspaper", "magazine", "book", "receipt", "tissue",
      "toilet paper", "napkin", "document", "envelope", "pizza box", "cereal box",
      "milk carton", "egg carton"]
  | .plastic => ["plastic", "bottle", "container", "bag", "packaging", "wrapper", "cup",
      "straw", "utensil", "water bottle", "soda bottle", "yogurt container",
      "takeout container", "plastic bag", "bubble wrap", "styrofoam"]
  | .glass => ["glass", "jar", "bottle glass", "window", "mirror", "glassware",
      "wine bottle", "beer bottle", "jam jar", "pickle jar", "glass container"]
  | .metal => ["metal", "aluminum", "can", "tin", "steel", "copper", "iron", "foil",
      "soda can", "beer can", "food can", "aluminum foil", "metal lid", "bottle cap"]
  | .organic => ["organic", "food", "fruit", "vegetable", "compost", "biodegradable",
      "apple", "banana", "waste food", "food scraps", "peel", "core", "leftovers",
      "coffee grounds", "tea bag"]
  | .hazardous => ["battery", "electronic", "chemical", "paint", "toxic", "dangerous",
      "hazardous", "medical", "phone", "computer", "lightbulb", "motor oil",
      "cleaning product"]
  | .unknown => []

/-- Variant B keyword table (`categoryKeywords` object, second class). -/
def keywordsB : Category → List String
  | .paper => ["paper", "cardboard", "newspaper", "magazine", "book", "receipt", "tissue",
      "toilet paper", "napkin", "document"]
  | .plastic => ["plastic", "bottle", "container", "bag", "packaging", "wrapper", "cup",
      "straw", "utensil"]
  | .glass => ["glass", "jar", "bottle glass", "window", "mirror", "glassware"]
  | .metal => ["metal", "aluminum", "can", "tin", "steel", "copper", "iron", "foil"]
  | .organic => ["organic", "food", "fruit", "vegetable", "compost", "biodegradable",
      "apple", "banana", "waste food"]
  | .hazardous => ["battery", "electronic", "chemical", "paint", "toxic", "dangerous",
      "hazardous", "medical"]
  | .unknown => []

/-- The fixed `Object.entries` iteration order of both keyword objects:
paper, plastic, glass, metal, organic, hazardous. -/
def categoryKeywordTableA : List (Category × List String) :=
  [(.paper, keywordsA .paper), (.plastic, keywordsA .plastic), (.glass, keywordsA .glass),
   (.metal, keywordsA .metal), (.organic, keywordsA .organic),
   (.hazardous, keywordsA .hazardous)]

/-- Variant B keyword table in its fixed iteration order. -/
def categoryKeywordTableB : List (Category × List String) :=
  [(.paper, keywordsB .paper), (.plastic, keywordsB .plastic), (.glass, keywordsB .glass),
   (.metal, keywordsB .metal), (.organic, keywordsB .organic),
   (.hazardous, keywordsB .hazardous)]

/-- The `for (const [category, keywords] of Object.entries(categoryKeywords))` loop:
return the first category whose keyword list has some keyword occurring as a
substring of `s` (`keywords.some(keyword => aiResponse.includes(keyword))`). -/
def scanKeywords : List (Category × List String) → String → Option Category
  | [], _ => none
  | (c, kws) :: rest, s =>
      if kws.any (fun k => jsIncludes s k) then some c else scanKeywords rest s

/-- Does category `c` have a variant-A keyword occurring in label `s`? -/
def hasKeywordA (c : Category) (s : String) : Bool :=
  (keywordsA c).any (fun k => jsIncludes s k)

/-- Does category `c` have a variant-B keyword occurring in label `s`? -/
def hasKeywordB (c : Category) (s : String) : Bool :=
  (keywordsB c).any (fun k => jsIncludes s k)

/-- Position of each category in the fixed scan order (unkeyworded `unknown` last). -/
def catIdx : Category → Nat
  | .paper => 0
  | .plastic => 1
  | .glass => 2
  | .metal => 3
  | .organic => 4
  | .hazardous => 5
  | .unknown => 6

/-- Variant A `mapToCategory`: `undefined`/empty label gives `'plastic'`, a
canonical name is returned unchanged, otherwise the keyword scan runs and a
miss gives `'unknown'`. -/
def mapToCategoryA (aiResponse : Option String) : Category :=
  match aiResponse with
  | none => .plastic
  | some s =>
      if s = "" then .plastic
      else
        match parseCategory s with
        | some c => c
        | none => (scanKeywords categoryKeywordTableA s).getD .unknown

/-- Variant B `mapToCategory`: identical control flow to variant A but with the
smaller keyword table and the `hasOwnProperty` direct-match guard. -/
def mapToCategoryB (aiResponse : Option String) : Category :=
  match aiResponse with
  | none => .plastic
  | some s =>
      if s = "" then .plastic
      else
        match parseCategory s with
        | some c => c
        | none => (scanKeywords categoryKeywordTableB s).getD .unknown

/-- The `this.pointsMultipliers` table of variant B (points per gram). -/
def pointsMultipliers : Category → ℚ
  | .metal => 0.03
  | .plastic => 0.02
  | .glass => 0.015
  | .paper => 0.01
  | .organic => 0.005
  | .hazardous => 0.0
  | .unknown => 0.0

/-- JavaScript `Math.round`: nearest integer, halves toward positive infinity. -/
def mathRound (x : ℚ) : ℚ := (⌊x + 1/2⌋ : ℤ)

/-- Variant B `calculatePoints(weight, category)`: multiply weight by the
category multiplier, apply the under-5-gram minimum of `0.1`
(`weight > 0 && weight < 5 && multiplier > 0 && points < 0.1`), then round to
one decimal (`Math.round(points * 10) / 10`).  The JS lookup
`this.pointsMultipliers[category] || 0` is total on the `Category` type, and
`0.0 || 0` is `0`, so it is exactly `pointsMultipliers`. -/
def calculatePoints (weight : ℚ) (category : Category) : ℚ :=
  mathRound
    ((if 0 < weight ∧ weight < 5 ∧ 0 < pointsMultipliers category ∧
        weight * pointsMultipliers category < 0.1
      then (0.1 : ℚ)
      else weight * pointsMultipliers category) * 10) / 10

/-- Variant B `estimateWeight(category)`: the `averageWeights` table (the
`|| 50` default is unreachable on the `Category` type). -/
def estimateWeight : Category → ℚ
  | .plastic => 50
  | .paper => 25
  | .glass => 200
  | .metal => 30
  | .organic => 100
  | .hazardous => 50
  | .unknown => 50

/-- JavaScript `w || d` on an optional number: `null`/`undefined` and the falsy
number `0` select the default `d`; any other number is kept. -/
def jsOr (w : Option ℚ) (d : ℚ) : ℚ :=
  match w with
  | none => d
  | some x => if x = 0 then d else x

/-- Outcome of the external labeling call (`fetch` to the vision endpoint) as
observed by `classifyImage`: a success carries the (possibly absent) message
content `data.choices[0]?.message?.content`; `httpError` is a response with
`!response.ok`; `failure` is a thrown error (network failure, malformed body). -/
inductive ExtOutcome
  | success (content : Option String)
  | httpError (status : Nat)
  | failure (msg : String)
deriving DecidableEq, Repr

/-- Variant A `fallbackClassification`: the fixed category `'plastic'`. -/
def fallbackClassificationA : Category := .plastic

/-- The five categories of variant B `fallbackClassification`
(`['plastic', 'paper', 'glass', 'metal', 'organic']`). -/
def fallbackCategoriesB : List Category := [.plastic, .paper, .glass, .metal, .organic]

/-- Variant B `fallbackClassification`: a uniformly random pick
`categories[Math.floor(Math.random() * 5)]`, with the random draw modelled by
the index `i : Fin 5`. -/
def fallbackClassificationB (i : Fin 5) : Category :=
  fallbackCategoriesB.get ⟨i.val, i.isLt⟩

/-- Variant A `classifyImage`, as a function of the external call's outcome: a
non-ok response or a thrown error goes to the fallback; on success the content
is lowercased, trimmed and handed to `mapToCategory`. -/
def classifyImageA (ext : ExtOutcome) : Category :=
  match ext with
  | .success content => mapToCategoryA (content.map normalizeLabel)
  | .httpError _ => fallbackClassificationA
  | .failure _ => fallbackClassificationA

/-- Variant B `classifyImage` (random draw `i` feeds the fallback). -/
def classifyImageB (i : Fin 5) (ext : ExtOutcome) : Category :=
  match ext with
  | .success content => mapToCategoryB (content.map normalizeLabel)
  | .httpError _ => fallbackClassificationB i
  | .failure _ => fallbackClassificationB i

/-- The image argument of `getCategory` / `getPoints`: a string payload, a
`File` (whose `FileReader` result is modelled as the data URL it would
produce), or any other value. -/
inductive ImageInput
  | str (s : String)
  | file (dataUrl : String)
  | other
deriving DecidableEq, Repr

/-- `prepareImage`: a string is kept (prefixed with `data:image/jpeg;base64,`
unless it already starts with `data:`), a `File` is read as a data URL, and
anything else throws `'Invalid image format'`. -/
def prepareImage : ImageInput → Except String String
  | .str s =>
      .ok (if strLeads "data:".toList s.toList then s else "data:image/jpeg;base64," ++ s)
  | .file d => .ok d
  | .other => .error "Invalid image format"

/-- Variant A `getCategory`: prepare the image, classify; the surrounding
`try/catch` turns any thrown error (only `prepareImage` can throw here, since
`classifyImage` traps its own failures) into the return value `'unknown'`. -/
def getCategoryA (ext : ExtOutcome) (image : ImageInput) : Category :=
  match prepareImage image with
  | .error _ => .unknown
  | .ok _ => classifyImageA ext

/-- Variant B `getPoints(image, weight = null)`: prepare the image, classify,
substitute the estimated weight via `weight || this.estimateWeight(category)`,
and score; the surrounding `try/catch` turns a thrown error into `0` points. -/
def getPoints (i : Fin 5) (ext : ExtOutcome) (image : ImageInput) (weight : Option ℚ) : ℚ :=
  match prepareImage image with
  | .error _ => 0
  | .ok _ =>
      let category := classifyImageB i ext
      calculatePoints (jsOr weight (estimateWeight category)) category

/-- Specification-side restatement of the Point Scorer rule (spec sections 4.2
and 8, and claim C3): the result is the weight times the category's multiplier
rounded to one decimal place, except that when `0 < weight < 5`, the multiplier
is positive and the raw product is below `0.1`, the result is exactly `0.1`. -/
def scorePointsSpec (weight : ℚ) (category : Category) : ℚ :=
  if 0 < weight ∧ weight < 5 ∧ 0 < pointsMultipliers category ∧
      weight * pointsMultipliers category < 0.1
  then (0.1 : ℚ)
  else mathRound (weight * pointsMultipliers category * 10) / 10

/-! Helper lemmas shared by several claims. -/

/-- The empty label matches no variant-A keyword (every keyword is non-empty). -/
lemma hasKeywordA_empty : ∀ X : Category, hasKeywordA X "" = false := by decide

/-- The empty label matches no variant-B keyword. -/
lemma hasKeywordB_empty : ∀ X : Category, hasKeywordB X "" = false := by decide

/-- Unfolding of the variant-A keyword scan into its six ordered tests. -/
lemma scanA_expand (s : String) :
    scanKeywords categoryKeywordTableA s =
      if hasKeywordA .paper s then some .paper
      else if hasKeywordA .plastic s then some .plastic
      else if hasKeywordA .glass s then some .glass
      else if hasKeywordA .metal s then some .metal
      else if hasKeywordA .organic s then some .organic
      else if hasKeywordA .hazardous s then some .hazardous
      else none := rfl

/-- Unfolding of the variant-B keyword scan into its six ordered tests. -/
lemma scanB_expand (s : String) :
    scanKeywords categoryKeywordTableB s =
      if hasKeywordB .paper s then some .paper
      else if hasKeywordB .plastic s then some .plastic
      else if hasKeywordB .glass s then some .glass
      else if hasKeywordB .metal s then some .metal
      else if hasKeywordB .organic s then some .organic
      else if hasKeywordB .hazardous s then some .hazardous
      else none := rfl

/-! Claim C1 (corrected). -/

/-- Claim C1, counterexample: the claim says every external-call failure makes
the resolver return the fixed default `'plastic'`, but variant B's fallback is a
random pick — with random draw `1` an HTTP 429 failure yields `'paper'`, not
`'plastic'`. -/
theorem classifyImageB_failure_not_plastic :
    classifyImageB 1 (ExtOutcome.httpError 429) = Category.paper ∧
      classifyImageB 1 (ExtOutcome.httpError 429) ≠ Category.plastic := by decide

/-- Claim C1 (amended): on every external-call failure (non-success status or
thrown error) variant A returns the fixed default `'plastic'`, while variant B
returns one of the five categories `plastic, paper, glass, metal, organic`
selected by its random draw; both resolvers are total functions on the failure
outcomes, so neither raises the failure to its caller. -/
theorem external_failure_fallback :
    (∀ status : Nat, classifyImageA (ExtOutcome.httpError status) = Category.plastic)
    ∧ (∀ msg : String, classifyImageA (ExtOutcome.failure msg) = Category.plastic)
    ∧ (∀ (i : Fin 5) (status : Nat),
        classifyImageB i (ExtOutcome.httpError status) ∈ fallbackCategoriesB)
    ∧ (∀ (i : Fin 5) (msg : String),
        classifyImageB i (ExtOutcome.failure msg) ∈ fallbackCategoriesB) := by
  have hmem : ∀ j : Fin 5, fallbackClassificationB j ∈ fallbackCategoriesB := by decide
  exact ⟨fun _ => rfl, fun _ => rfl, fun i _ => hmem i, fun i _ => hmem i⟩

/-! Claim C8 (corrected). -/

/-- Claim C8, counterexample: the claim says the empty/absent label defaults to
`'unknown'` in one of the two code paths, but neither variant's `mapToCategory`
ever returns `'unknown'` for an empty or absent label. -/
theorem empty_label_never_unknown :
    mapToCategoryA none ≠ Category.unknown ∧ mapToCategoryA (some "") ≠ Category.unknown
    ∧ mapToCategoryB none ≠ Category.unknown
    ∧ mapToCategoryB (some "") ≠ Category.unknown := by decide

/-- Claim C8 (amended): when the label returned by the external capability is
empty or absent, both code paths skip straight to the same default category
`'plastic'`. -/
theorem empty_label_defaults_plastic :
    mapToCategoryA none = Category.plastic ∧ mapToCategoryA (some "") = Category.plastic
    ∧ mapToCategoryB none = Category.plastic
    ∧ mapToCategoryB (some "") = Category.plastic := by decide

/-! Claim C9 (corrected). -/

/-- Claim C9, counterexample: for an input that is neither a string nor a
`File`, `getCategory` returns the silently defaulted category `'unknown'` and
`getPoints` returns `0` points — ordinary return values, not an explicit
failure surfaced to the caller. -/
theorem invalid_image_silently_defaulted :
    getCategoryA (ExtOutcome.success (some "metal")) ImageInput.other = Category.unknown
    ∧ getPoints 0 (ExtOutcome.success (some "metal")) ImageInput.other (some 10) = 0 :=
  ⟨rfl, rfl⟩

/-- Claim C9 (amended): an image payload that is neither a string nor a `File`
is rejected by `prepareImage` before any external call — the results of
`getCategory` and `getPoints` on such input are independent of the external
capability's outcome — but the surrounding `try/catch` swallows the error, so
the caller receives the defaulted values `'unknown'` and `0` rather than an
explicit failure. -/
theorem invalid_image_rejected_before_external_call :
    prepareImage ImageInput.other = Except.error "Invalid image format"
    ∧ (∀ ext : ExtOutcome, getCategoryA ext ImageInput.other = Category.unknown)
    ∧ (∀ (i : Fin 5) (ext : ExtOutcome) (w : Option ℚ),
        getPoints i ext ImageInput.other w = 0) :=
  ⟨rfl, fun _ => rfl, fun _ _ _ => rfl⟩

/-! Claim C2 (code bug). -/

/-- Claim C2, evaluation at the failing input: `calculatePoints` performs no
input validation at all — a negative weight is silently multiplied through, so
`calculatePoints(-100, 'metal')` returns the negative score `-3` and
`calculatePoints(-1, 'metal')` returns `0`, instead of the explicit input-error
rejection that the specification requires. -/
theorem calculatePoints_accepts_negative_weight :
    calculatePoints (-100) Category.metal = -3
    ∧ calculatePoints (-1) Category.metal = 0 := by
  constructor <;> norm_num [calculatePoints, pointsMultipliers, mathRound]

/-! Claim C3 (confirmed). -/

/-- Claim C3: for every category and weight, `calculatePoints` returns the
weight times the category's multiplier rounded to one decimal place, except
that when `0 < weight < 5`, the multiplier is positive and the raw product is
below `0.1`, the result is exactly `0.1`; in particular
`scorePoints('metal', 100) = 3.0` and `scorePoints('paper', 2) = 0.1`. -/
theorem calculatePoints_matches_spec :
    (∀ (w : ℚ) (c : Category), calculatePoints w c = scorePointsSpec w c)
    ∧ calculatePoints 100 Category.metal = 3
    ∧ calculatePoints 2 Category.paper = 0.1 := by
  refine ⟨fun w c => ?_, ?_, ?_⟩
  · unfold calculatePoints scorePointsSpec
    by_cases h : 0 < w ∧ w < 5 ∧ 0 < pointsMultipliers c ∧
        w * pointsMultipliers c < 0.1
    · rw [if_pos h, if_pos h]
      norm_num [mathRound]
    · rw [if_neg h, if_neg h]
  · norm_num [calculatePoints, pointsMultipliers, mathRound]
  · norm_num [calculatePoints, pointsMultipliers, mathRound]

/-! Claim C7 (confirmed). -/

/-- Claim C7: for every non-negative weight `w`, both `'hazardous'` and
`'unknown'` score `0` points — their multiplier is `0`, and the minimum-floor
rule does not fire for a zero multiplier. -/
theorem zero_multiplier_scores_zero (w : ℚ) (hw : 0 ≤ w) :
    calculatePoints w Category.hazardous = 0
    ∧ calculatePoints w Category.unknown = 0 := by
  constructor <;> norm_num [calculatePoints, pointsMultipliers, mathRound]

/-- Claim C7, witness at `w = 7`. -/
theorem zero_multiplier_scores_zero_witness :
    (0:ℚ) ≤ 7 ∧ (calculatePoints 7 Category.hazardous = 0
      ∧ calculatePoints 7 Category.unknown = 0) :=
  ⟨by decide, zero_multiplier_scores_zero 7 (by decide)⟩

/-! Claim C10 (confirmed). -/

/-- Claim C10: `getPoints` selects the weight with the falsy test
`weight || estimateWeight(category)`, so an explicitly supplied weight of `0`
is replaced by the category's default estimated weight and is indistinguishable
from omitting the weight; with label `'plastic'` the explicit weight `0` scores
`1` point (the 50-gram estimate times `0.02`), not `0`. -/
theorem getPoints_zero_weight_uses_estimate :
    (∀ (i : Fin 5) (ext : ExtOutcome) (img : ImageInput),
        getPoints i ext img (some 0) = getPoints i ext img none)
    ∧ getPoints 0 (ExtOutcome.success (some "plastic")) (ImageInput.str "img") (some 0) = 1 := by
  constructor
  · intro i ext img
    cases hp : prepareImage img with
    | error e => simp [getPoints, hp]
    | ok b => simp [getPoints, hp, jsOr]
  · have hp : prepareImage (ImageInput.str "img") =
        Except.ok "data:image/jpeg;base64,img" := rfl
    have hc : classifyImageB 0 (ExtOutcome.success (some "plastic")) =
        Category.plastic := by decide
    simp only [getPoints, hp, hc]
    norm_num [jsOr, estimateWeight, calculatePoints, pointsMultipliers, mathRound]

/-! Claim C4 (confirmed). -/

/-- Claim C4: for every label that is not an exact canonical category name,
`mapToCategory` scans the keyword table in the fixed order paper, plastic,
glass, metal, organic, hazardous and returns the first category one of whose
keywords occurs as a substring of the label; so a label containing a keyword of
category `X` and no keyword of any earlier-ordered category resolves to `X`, in
each of the two table variants. -/
theorem keyword_scan_first_match (s : String) (X : Category)
    (hdm : parseCategory s = none) :
    (hasKeywordA X s = true →
      (∀ Y, catIdx Y < catIdx X → hasKeywordA Y s = false) →
        mapToCategoryA (some s) = X)
    ∧ (hasKeywordB X s = true →
      (∀ Y, catIdx Y < catIdx X → hasKeywordB Y s = false) →
        mapToCategoryB (some s) = X) := by
  constructor
  · intro h2 h3
    have hne : s ≠ "" := by
      intro he
      rw [he, hasKeywordA_empty X] at h2
      simp at h2
    simp only [mapToCategoryA, if_neg hne, hdm]
    cases X with
    | paper =>
        simp [scanA_expand, h2]
    | plastic =>
        simp [scanA_expand, h2, h3 .paper (by decide)]
    | glass =>
        simp [scanA_expand, h2, h3 .paper (by decide), h3 .plastic (by decide)]
    | metal =>
        simp [scanA_expand, h2, h3 .paper (by decide), h3 .plastic (by decide),
          h3 .glass (by decide)]
    | organic =>
        simp [scanA_expand, h2, h3 .paper (by decide), h3 .plastic (by decide),
          h3 .glass (by decide), h3 .metal (by decide)]
    | hazardous =>
        simp [scanA_expand, h2, h3 .paper (by decide), h3 .plastic (by decide),
          h3 .glass (by decide), h3 .metal (by decide), h3 .organic (by decide)]
    | unknown =>
        rw [show hasKeywordA .unknown s = false from rfl] at h2
        simp at h2
  · intro h2 h3
    have hne : s ≠ "" := by
      intro he
      rw [he, hasKeywordB_empty X] at h2
      simp at h2
    simp only [mapToCategoryB, if_neg hne, hdm]
    cases X with
    | paper =>
        simp [scanB_expand, h2]
    | plastic =>
        simp [scanB_expand, h2, h3 .paper (by decide)]
    | glass =>
        simp [scanB_expand, h2, h3 .paper (by decide), h3 .plastic (by decide)]
    | metal =>
        simp [scanB_expand, h2, h3 .paper (by decide), h3 .plastic (by decide),
          h3 .glass (by decide)]
    | organic =>
        simp [scanB_expand, h2, h3 .paper (by decide), h3 .plastic (by decide),
          h3 .glass (by decide), h3 .metal (by decide)]
    | hazardous =>
        simp [scanB_expand, h2, h3 .paper (by decide), h3 .plastic (by decide),
          h3 .glass (by decide), h3 .metal (by decide), h3 .organic (by decide)]
    | unknown =>
        rw [show hasKeywordB .unknown s = false from rfl] at h2
        simp at h2

/-- Claim C4, witness: `"cardboard box"` is not a canonical name, contains the
`paper` keyword `"cardboard"` and no keyword of an earlier-ordered category, so
both variants resolve it to `paper`. -/
theorem keyword_scan_first_match_witness :
    mapToCategoryA (some "cardboard box") = Category.paper
    ∧ mapToCategoryB (some "cardboard box") = Category.paper := by
  have h := keyword_scan_first_match "cardboard box" Category.paper (by decide)
  exact ⟨h.1 (by decide) (by decide), h.2 (by decide) (by decide)⟩

/-! Claim C5 (confirmed). -/

/-- Claim C5: each of the seven canonical category names, given as the
(lowercased, trimmed) label, resolves to that same category in both variants;
hence resolving any label and re-resolving the returned canonical name is
idempotent. -/
theorem canonical_names_idempotent :
    (∀ c : Category, mapToCategoryA (some (Category.name c)) = c
        ∧ mapToCategoryB (some (Category.name c)) = c)
    ∧ (∀ r : Option String,
        mapToCategoryA (some (Category.name (mapToCategoryA r))) = mapToCategoryA r
        ∧ mapToCategoryB (some (Category.name (mapToCategoryB r))) = mapToCategoryB r) := by
  have base : ∀ c : Category, mapToCategoryA (some (Category.name c)) = c
      ∧ mapToCategoryB (some (Category.name c)) = c := by decide
  exact ⟨base, fun r => ⟨(base (mapToCategoryA r)).1, (base (mapToCategoryB r)).2⟩⟩

/-! Claim C6 (confirmed). -/

/-- Claim C6: every non-empty label that is not a canonical category name and
contains no keyword of any category resolves to `'unknown'` in both variants. -/
theorem no_keyword_match_unknown (s : String) (hne : s ≠ "")
    (hdm : parseCategory s = none)
    (hA : ∀ X, hasKeywordA X s = false) (hB : ∀ X, hasKeywordB X s = false) :
    mapToCategoryA (some s) = Category.unknown
    ∧ mapToCategoryB (some s) = Category.unknown := by
  constructor
  · simp only [mapToCategoryA, if_neg hne, hdm]
    simp [scanA_expand, hA .paper, hA .plastic, hA .glass, hA .metal, hA .organic,
      hA .hazardous]
  · simp only [mapToCategoryB, if_neg hne, hdm]
    simp [scanB_expand, hB .paper, hB .plastic, hB .glass, hB .metal, hB .organic,
      hB .hazardous]

/-- Claim C6, witness: `"zzz"` is non-empty, non-canonical and keyword-free, so
both variants resolve it to `'unknown'`. -/
theorem no_keyword_match_unknown_witness :
    mapToCategoryA (some "zzz") = Category.unknown
    ∧ mapToCategoryB (some "zzz") = Category.unknown :=
  no_keyword_match_unknown "zzz" (by decide) (by decide) (by decide) (by decide)

end Rubbish
